import Mathlib

/-!
Verification of the profiling-session lifecycle manager of the `profile`
package. The package exists in several revisions in the repository; the
definitions below embed each revision that the properties refer to:

* `PkgProfile`: the options-function API with the atomic `started` /
  `stopped` flags (`Profile`, option functions `CPUProfile`, `MemProfile`,
  `MemProfileRate`, `BlockProfile`, `TraceProfile`, `ProfilePath`, `Quiet`,
  `NoShutdownHook`, and `Start` / `Profile.Stop`).
* `PkgProfile.P1`: the earlier options revision in which `Quiet` redirects
  the global logger to `ioutil.Discard`.
* `PkgProfile.Cfg`: the `*Config`-based API (`Config`, nil-tolerant getters,
  `Start(cfg *Config)`).

Side effects of the Go code (file and directory creation, pprof
start/stop, rate changes, logging, process exit) are modelled as an
explicit trace of `Effect` values, and the mutable runtime globals
(`started`, `runtime.MemProfileRate`, the block-profile rate) as an
explicit `GlobalState` threaded through the operations. OS outcomes
(whether `os.MkdirAll`, `ioutil.TempDir`, `os.Create`, `trace.Start`
succeed, and which temporary directory name the OS hands out) are an
`Env` parameter.
-/

namespace PkgProfile

/-- Mode constants, from the `iota` block: `cpuMode = 0`, `memMode = 1`,
`blockMode = 2`, `traceMode = 3`. -/
def cpuMode : Nat := 0

/-- Mode constant for memory profiling. -/
def memMode : Nat := 1

/-- Mode constant for block (contention) profiling. -/
def blockMode : Nat := 2

/-- Mode constant for execution tracing. -/
def traceMode : Nat := 3

/-- Default memory profiling rate (`DefaultMemProfileRate = 4096`). -/
def DefaultMemProfileRate : Int := 4096

/-- Configuration fields of the `Profile` struct. The `closer` and `stopped`
fields of the Go struct are session state and live in `Session` below.
Field defaults are the Go zero value (`var prof Profile`): note that the
zero value of `mode` is `0 = cpuMode`. -/
structure Profile where
  quiet : Bool := false
  noShutdownHook : Bool := false
  mode : Nat := 0
  path : String := ""
  memProfileRate : Int := 0
deriving Repr, DecidableEq

/-- Zero value of `Profile`, as produced by `var prof Profile`. -/
def initProfile : Profile := {}

/-- The exported option functions of the package, as data. Each constructor
corresponds to one exported `func(*Profile)` option (or option factory). -/
inductive Opt where
  | noShutdownHookOpt : Opt
  | quietOpt : Opt
  | cpuProfileOpt : Opt
  | memProfileOpt : Opt
  | memProfileRateOpt (rate : Int) : Opt
  | blockProfileOpt : Opt
  | traceProfileOpt : Opt
  | profilePathOpt (path : String) : Opt
deriving Repr, DecidableEq

/-- Application of one option function to a `Profile`, field for field as in
the source: `NoShutdownHook` sets `noShutdownHook`; `Quiet` sets `quiet`;
`CPUProfile` sets `mode = cpuMode`; `MemProfile` sets
`memProfileRate = DefaultMemProfileRate` and `mode = memMode`;
`MemProfileRate(rate)` sets `memProfileRate = rate` and `mode = memMode`;
`BlockProfile` sets `mode = blockMode`; `TraceProfile` sets
`mode = traceMode`; `ProfilePath(path)` sets `path`. -/
def applyOpt (p : Profile) : Opt → Profile
  | .noShutdownHookOpt => { p with noShutdownHook := true }
  | .quietOpt => { p with quiet := true }
  | .cpuProfileOpt => { p with mode := cpuMode }
  | .memProfileOpt => { p with memProfileRate := DefaultMemProfileRate, mode := memMode }
  | .memProfileRateOpt rate => { p with memProfileRate := rate, mode := memMode }
  | .blockProfileOpt => { p with mode := blockMode }
  | .traceProfileOpt => { p with mode := traceMode }
  | .profilePathOpt path => { p with path := path }

/-- The loop `for _, option := range options { option(&prof) }` over the
zero-valued `Profile`. -/
def applyOpts (options : List Opt) : Profile :=
  options.foldl applyOpt initProfile

/-- Observable side effects of the code, in program order. -/
inductive Effect where
  | fatalLog (msg : String) : Effect
  | infoLog (msg : String) : Effect
  | createDir (path : String) : Effect
  | createTempDir (path : String) : Effect
  | createFile (fn : String) : Effect
  | startCPUProfile (fn : String) : Effect
  | stopCPUProfile : Effect
  | writeHeapProfile (fn : String) : Effect
  | writeBlockProfile (fn : String) : Effect
  | setMemProfileRate (rate : Int) : Effect
  | setBlockProfileRate (rate : Int) : Effect
  | startTraceEff (fn : String) : Effect
  | stopTraceEff : Effect
  | closeFile (fn : String) : Effect
  | clearStarted : Effect
  | signalStopEff : Effect
  | exitSuccess : Effect
deriving Repr, DecidableEq

/-- Mutable runtime globals touched by the package: the package-level
`started` flag (`var started uint32`, modelled as a `Bool`), the global
`runtime.MemProfileRate`, and the global block-profile rate set through
`runtime.SetBlockProfileRate`. -/
structure GlobalState where
  started : Bool
  memProfileRate : Int
  blockProfileRate : Int
deriving Repr, DecidableEq

/-- The `logf` helper of `Start`: emits an informational log line unless
`prof.quiet` is set. -/
def logf (quiet : Bool) (msg : String) : List Effect :=
  if quiet then [] else [.infoLog msg]

/-- The cleanup closure stored in `prof.closer`, one constructor per mode
branch of the dispatch. The `mem` closure captures the saved
`old = runtime.MemProfileRate`. -/
inductive Closer where
  | cpu (fn : String) : Closer
  | mem (fn : String) (old : Int) : Closer
  | block (fn : String) : Closer
  | trace (fn : String) : Closer
deriving Repr, DecidableEq

/-- Running a closer: the body of the closure assigned in the matching mode
branch, emitting its effects in order and updating the runtime globals.
The cpu closer stops CPU profiling and closes the file; the mem closer
writes the heap profile, closes the file and restores the saved rate; the
block closer writes the block profile, closes the file and resets the
block rate to 0; the trace closer stops tracing (and does not close the
file itself). Each then logs through `logf`. -/
def runCloser (quiet : Bool) (g : GlobalState) : Closer → GlobalState × List Effect
  | .cpu fn =>
      (g, [.stopCPUProfile, .closeFile fn]
            ++ logf quiet ("profile: cpu profiling disabled, " ++ fn))
  | .mem fn old =>
      ({ g with memProfileRate := old },
       [.writeHeapProfile fn, .closeFile fn, .setMemProfileRate old]
            ++ logf quiet ("profile: memory profiling disabled, " ++ fn))
  | .block fn =>
      ({ g with blockProfileRate := 0 },
       [.writeBlockProfile fn, .closeFile fn, .setBlockProfileRate 0]
            ++ logf quiet ("profile: block profiling disabled, " ++ fn))
  | .trace fn =>
      (g, [.stopTraceEff]
            ++ logf quiet ("profile: trace disabled, " ++ fn))

/-- Session state of an active profiling run: the resolved descriptor, the
`closer` field (`none` models a nil `func()`), and the `stopped` flag
(`uint32`, 0 or 1). -/
structure Session where
  prof : Profile
  closer : Option Closer
  stopped : Nat
deriving Repr, DecidableEq

/-- The `Stop` method: `CompareAndSwapUint32(&p.stopped, 0, 1)`; if the swap
loses, return immediately with no effect; otherwise run `p.closer()` and
then `StoreUint32(&started, 0)` (modelled by the trailing `clearStarted`
effect and the `started := false` update). Calling a nil closer would
panic; that case is modelled by the `none` result. -/
def Session.Stop (s : Session) (g : GlobalState) :
    Option (Session × GlobalState × List Effect) :=
  if s.stopped ≠ 0 then
    some (s, g, [])
  else
    match s.closer with
    | none => none
    | some c =>
        let s1 : Session := { s with stopped := 1 }
        let gr := runCloser s.prof.quiet g c
        some (s1, { gr.1 with started := false }, gr.2 ++ [.clearStarted])

/-- OS behaviour that the code observes: whether `os.MkdirAll` succeeds,
what `ioutil.TempDir` returns (`none` is failure), whether `os.Create`
succeeds on a given file name, and whether `trace.Start` succeeds. -/
structure Env where
  mkdirAllOk : Bool
  tempDirResult : Option String
  createOk : String → Bool
  startTraceOk : Bool

/-- The `filepath.Join(path, base)` calls of the dispatch. -/
def filepathJoin (dir base : String) : String := dir ++ "/" ++ base

/-- Output-directory resolution, the anonymous function inside `Start` (the
same logic as `resolvePath` in the earlier revision): a non-empty `path`
is created with `os.MkdirAll` and used as-is; an empty `path` is replaced
by a fresh `ioutil.TempDir` directory. `none` models a non-nil error. -/
def resolvePath (env : Env) (path : String) : Option (String × Effect) :=
  if path ≠ "" then
    if env.mkdirAllOk then some (path, .createDir path) else none
  else
    match env.tempDirResult with
    | some d => some (d, .createTempDir d)
    | none => none

/-- Result of `Start`: either the process terminated through `log.Fatal`
(with the effects emitted up to that point), or a session handle was
returned. -/
inductive StartResult where
  | fatal (g : GlobalState) (effects : List Effect) : StartResult
  | ok (s : Session) (g : GlobalState) (effects : List Effect) : StartResult
deriving Repr

/-- Effects emitted by a `Start` call, in either outcome. -/
def StartResult.effects : StartResult → List Effect
  | .fatal _ effs => effs
  | .ok _ _ effs => effs

/-- Mode dispatch of `Start` (the `switch prof.mode`), run after the output
directory has been resolved to `path`. Each branch creates its artifact
file (a failed create is fatal), performs its activation, and assigns the
closer. A mode outside the four constants matches no case and leaves the
closer nil; `Start` can never produce such a mode (see `applyOpt`). -/
def dispatchMode (env : Env) (prof : Profile) (g : GlobalState) (path : String) :
    StartResult :=
  if prof.mode = cpuMode then
    let fn := filepathJoin path "cpu.pprof"
    if env.createOk fn then
      .ok ⟨prof, some (.cpu fn), 0⟩ g
        ([.createFile fn]
          ++ logf prof.quiet ("profile: cpu profiling enabled, " ++ fn)
          ++ [.startCPUProfile fn])
    else
      .fatal g [.fatalLog ("profile: could not create cpu profile " ++ fn)]
  else if prof.mode = memMode then
    let fn := filepathJoin path "mem.pprof"
    if env.createOk fn then
      .ok ⟨prof, some (.mem fn g.memProfileRate), 0⟩
        { g with memProfileRate := prof.memProfileRate }
        ([.createFile fn, .setMemProfileRate prof.memProfileRate]
          ++ logf prof.quiet ("profile: memory profiling enabled, " ++ fn))
    else
      .fatal g [.fatalLog ("profile: could not create memory profile " ++ fn)]
  else if prof.mode = blockMode then
    let fn := filepathJoin path "block.pprof"
    if env.createOk fn then
      .ok ⟨prof, some (.block fn), 0⟩
        { g with blockProfileRate := 1 }
        ([.createFile fn, .setBlockProfileRate 1]
          ++ logf prof.quiet ("profile: block profiling enabled, " ++ fn))
    else
      .fatal g [.fatalLog ("profile: could not create block profile " ++ fn)]
  else if prof.mode = traceMode then
    let fn := filepathJoin path "trace.out"
    if env.createOk fn then
      if env.startTraceOk then
        .ok ⟨prof, some (.trace fn), 0⟩ g
          ([.createFile fn, .startTraceEff fn]
            ++ logf prof.quiet ("profile: trace enabled, " ++ fn))
      else
        .fatal g [.createFile fn, .fatalLog "profile: could not start trace"]
    else
      .fatal g [.fatalLog ("profile: could not create trace output file " ++ fn)]
  else
    .ok ⟨prof, none, 0⟩ g []

/-- The `Start` function: compare-and-swap the package-level `started` flag
(failure is `log.Fatal("profile: Start() already called")`, emitted before
any directory or file is touched); apply the options to the zero-valued
`Profile`; resolve the output directory (failure is fatal); dispatch on
the mode. The vestigial `prof.closers` append after the switch refers to
a field the `Profile` struct does not have and contributes nothing to the
closer invoked by `Stop`; the shutdown-hook goroutine registered when
`noShutdownHook` is unset is modelled separately by the `Watcher` machine
below. -/
def Start (env : Env) (g : GlobalState) (options : List Opt) : StartResult :=
  if g.started then
    .fatal g [.fatalLog "profile: Start() already called"]
  else
    let g1 : GlobalState := { g with started := true }
    let prof := applyOpts options
    match resolvePath env prof.path with
    | none =>
        .fatal g1 [.fatalLog "profile: could not create initial output directory"]
    | some (path, dirEff) =>
        match dispatchMode env prof g1 path with
        | .fatal g2 effs => .fatal g2 (dirEff :: effs)
        | .ok s g2 effs => .ok s g2 (dirEff :: effs)

/-- State of the shutdown-hook goroutine: `armed` is true while it is still
blocked on `<-c`; after the first signal it calls `signal.Stop(c)` and
never receives again. -/
structure Watcher where
  armed : Bool
deriving Repr, DecidableEq

/-- Delivery of one interrupt signal to the process. While the watcher is
armed, it logs, stops signal delivery (`signal.Stop(c)`), invokes
`prof.Stop()`, and exits the process with success status. Once disarmed it
never runs again: a later signal falls through to default OS handling and
produces none of the watcher's effects (in particular no `Stop` call). -/
def deliverInterrupt (w : Watcher) (s : Session) (g : GlobalState) :
    Watcher × Session × GlobalState × List Effect :=
  if w.armed then
    match s.Stop g with
    | some (s1, g1, effs) =>
        (⟨false⟩, s1, g1,
          [.infoLog "profile: caught interrupt, stopping profiles", .signalStopEff]
            ++ effs ++ [.exitSuccess])
    | none =>
        (⟨false⟩, s, g,
          [.infoLog "profile: caught interrupt, stopping profiles", .signalStopEff])
  else
    (w, s, g, [])

/-- Delivery of `n` successive interrupt signals, accumulating the emitted
effects. -/
def deliverInterrupts : Nat → Watcher → Session → GlobalState →
    Watcher × Session × GlobalState × List Effect
  | 0, w, s, g => (w, s, g, [])
  | n + 1, w, s, g =>
      let r1 := deliverInterrupt w s g
      let r2 := deliverInterrupts n r1.1 r1.2.1 r1.2.2.1
      (r2.1, r2.2.1, r2.2.2.1, r1.2.2.2 ++ r2.2.2.2)

namespace P1

/-- The `profile` struct of the earlier options revision (the one whose
`Start` calls `log.SetOutput(ioutil.Discard)` when `Quiet` is set). -/
structure P1Profile where
  Quiet : Bool := false
  CPUProfile : Bool := false
  MemProfile : Bool := false
  BlockProfile : Bool := false
  ProfilePath : String := ""
  NoShutdownHook : Bool := false
  MemProfileRate : Int := 0
deriving Repr, DecidableEq

/-- The `NoProfiles` method: clears all three profile-selection flags. -/
def noProfiles (c : P1Profile) : P1Profile :=
  { c with CPUProfile := false, MemProfile := false, BlockProfile := false }

/-- Exported option functions of this revision. -/
inductive Opt1 where
  | noShutdownHookOpt : Opt1
  | quietOpt : Opt1
  | cpuProfileOpt : Opt1
  | memProfileOpt : Opt1
  | blockProfileOpt : Opt1
deriving Repr, DecidableEq

/-- Application of one option function: the three mode options call
`NoProfiles` first and then set their own flag. -/
def applyOpt1 (c : P1Profile) : Opt1 → P1Profile
  | .noShutdownHookOpt => { c with NoShutdownHook := true }
  | .quietOpt => { c with Quiet := true }
  | .cpuProfileOpt => { noProfiles c with CPUProfile := true }
  | .memProfileOpt => { noProfiles c with MemProfile := true }
  | .blockProfileOpt => { noProfiles c with BlockProfile := true }

/-- The `newProfile` constructor: `MemProfileRate: 4096` then
`CPUProfile(prof)`. -/
def newProfile : P1Profile :=
  applyOpt1 { MemProfileRate := 4096 } .cpuProfileOpt

/-- Emission of one log line through the global logger: once
`log.SetOutput(ioutil.Discard)` has run (`discard = true`), the line is
dropped. -/
def emit (discard : Bool) (e : Effect) : List Effect :=
  if discard then [] else [e]

/-- Result of this revision's `Start`, carrying the log lines that actually
reached the log sink (lines written after a `SetOutput(Discard)` are
absent). `fatal` means the process terminated through `log.Fatalf`. -/
inductive P1Result where
  | fatal (emitted : List Effect) : P1Result
  | ok (emitted : List Effect) (closers : List Closer) : P1Result
deriving Repr, DecidableEq

/-- The `Start` of this revision, restricted to its logging and closer
behaviour: `newProfile` plus options; `resolvePath` (a failure here is
logged before the `SetOutput` call, so it is always emitted); then
`if prof.Quiet { log.SetOutput(ioutil.Discard) }`; then the
`switch` over the three profile flags, whose `log.Fatalf` and
`log.Printf` calls all go through the possibly-discarded logger. -/
def start (env : Env) (options : List Opt1) : P1Result :=
  let prof := options.foldl applyOpt1 newProfile
  match resolvePath env prof.ProfilePath with
  | none => .fatal [.fatalLog "profile: could not create initial output directory"]
  | some (path, _) =>
      let discard := prof.Quiet
      if prof.CPUProfile then
        let fn := filepathJoin path "cpu.pprof"
        if env.createOk fn then
          .ok (emit discard (.infoLog ("profile: cpu profiling enabled, " ++ fn)))
            [.cpu fn]
        else
          .fatal (emit discard (.fatalLog ("profile: could not create cpu profile " ++ fn)))
      else if prof.MemProfile then
        let fn := filepathJoin path "mem.pprof"
        if env.createOk fn then
          .ok (emit discard (.infoLog ("profile: memory profiling enabled, " ++ fn)))
            [.mem fn 0]
        else
          .fatal (emit discard (.fatalLog ("profile: could not create memory profile " ++ fn)))
      else if prof.BlockProfile then
        let fn := filepathJoin path "block.pprof"
        if env.createOk fn then
          .ok (emit discard (.infoLog ("profile: block profiling enabled, " ++ fn)))
            [.block fn]
        else
          .fatal (emit discard (.fatalLog ("profile: could not create block profile " ++ fn)))
      else
        .ok [] []

end P1

namespace Cfg

/-- The `Config` struct of the `*Config`-based API revision. -/
structure Config where
  Verbose : Bool := false
  CPUProfile : Bool := false
  MemProfile : Bool := false
  ProfilePath : String := ""
deriving Repr, DecidableEq

/-- Nil-tolerant getter `(*Config).getVerbose`: a nil receiver yields
`true`. A Go method on a possibly-nil pointer receiver is modelled as a
function on `Option Config`. -/
def getVerbose : Option Config → Bool
  | none => true
  | some c => c.Verbose

/-- Nil-tolerant getter `(*Config).getCPUProfile`: a nil receiver yields
`false`. -/
def getCPUProfile : Option Config → Bool
  | none => false
  | some c => c.CPUProfile

/-- Nil-tolerant getter `(*Config).getMemProfile`: a nil receiver yields
`false`. -/
def getMemProfile : Option Config → Bool
  | none => false
  | some c => c.MemProfile

/-- Nil-tolerant getter `(*Config).getProfilePath`: a nil receiver yields
the empty string. -/
def getProfilePath : Option Config → String
  | none => ""
  | some c => c.ProfilePath

/-- Cleanup closures appended to `p.closers` in this revision. -/
inductive CfgCloser where
  | cpu (fn : String) : CfgCloser
  | mem (fn : String) : CfgCloser
deriving Repr, DecidableEq

/-- The `P` struct returned by this revision's `Start`. -/
structure P where
  path : String
  config : Option Config
  closers : List CfgCloser
deriving Repr, DecidableEq

/-- Result of this revision's `Start`. -/
inductive CfgResult where
  | fatal (effects : List Effect) : CfgResult
  | ok (p : P) (effects : List Effect) : CfgResult
deriving Repr, DecidableEq

/-- The cpu-profiling block of this revision's `Start`: when enabled,
create `cpu.pprof` (failure is fatal, modelled by `none`), log when
verbose, start CPU profiling and append the closer. -/
def cpuBlock (env : Env) (v : Bool) (enabled : Bool) (path : String) :
    Option (List CfgCloser × List Effect) :=
  if enabled then
    let fn := filepathJoin path "cpu.pprof"
    if env.createOk fn then
      some ([.cpu fn],
        [.createFile fn]
          ++ (if v then [Effect.infoLog ("profile: cpu profiling enabled, " ++ fn)] else [])
          ++ [.startCPUProfile fn])
    else none
  else some ([], [])

/-- The memory-profiling block of this revision's `Start` (this revision
does not touch `runtime.MemProfileRate`; its closer writes the heap
profile and closes the file). -/
def memBlock (env : Env) (v : Bool) (enabled : Bool) (path : String) :
    Option (List CfgCloser × List Effect) :=
  if enabled then
    let fn := filepathJoin path "mem.pprof"
    if env.createOk fn then
      some ([.mem fn],
        [.createFile fn]
          ++ (if v then [Effect.infoLog ("profile: memory profiling enabled, " ++ fn)] else []))
    else none
  else some ([], [])

/-- The `Start(cfg *Config)` of this revision: resolve the output path
through the nil-tolerant getters, run the cpu block then the mem block
(both may be enabled), and return the `P` handle. The unconditional
shutdown-hook goroutine of this revision has no synchronous effect and is
not part of the properties below. -/
def startCfg (env : Env) (cfg : Option Config) : CfgResult :=
  match resolvePath env (getProfilePath cfg) with
  | none => .fatal [.fatalLog "profile: could not create initial output directory"]
  | some (path, dirEff) =>
      match cpuBlock env (getVerbose cfg) (getCPUProfile cfg) path with
      | none =>
          .fatal [dirEff, .fatalLog ("profile: could not create cpu profile file "
            ++ filepathJoin path "cpu.pprof")]
      | some (cs, ce) =>
          match memBlock env (getVerbose cfg) (getMemProfile cfg) path with
          | none =>
              .fatal ((dirEff :: ce) ++ [.fatalLog ("profile: could not create memory profile file "
                ++ filepathJoin path "mem.pprof")])
          | some (ms, me) =>
              .ok ⟨path, cfg, cs ++ ms⟩ ((dirEff :: ce) ++ me)

/-- Observable behaviour of a `CfgResult`: the emitted effects and, on
success, the handle's path and closers. The stored `config` pointer is
not observable through the returned `Stop` operation. -/
def CfgResult.obs : CfgResult → List Effect × Option (String × List CfgCloser)
  | .fatal effs => (effs, none)
  | .ok p effs => (effs, some (p.path, p.closers))

end Cfg

/-- Mode selected by one option function: the mode-setting options map to
their mode constant, the others to `none`. -/
def modeOf : Opt → Option Nat
  | .cpuProfileOpt => some cpuMode
  | .memProfileOpt => some memMode
  | .memProfileRateOpt _ => some memMode
  | .blockProfileOpt => some blockMode
  | .traceProfileOpt => some traceMode
  | .noShutdownHookOpt => none
  | .quietOpt => none
  | .profilePathOpt _ => none

theorem applyOpt_mode (p : Profile) (o : Opt) :
    (applyOpt p o).mode = (modeOf o).getD p.mode := by
  cases o <;> rfl

theorem foldl_mode (opts : List Opt) : ∀ p : Profile,
    (opts.foldl applyOpt p).mode = (opts.filterMap modeOf).getLastD p.mode := by
  induction opts with
  | nil => intro p; rfl
  | cons o rest ih =>
      intro p
      rw [List.foldl_cons, ih, List.filterMap_cons]
      cases ho : modeOf o with
      | none =>
          have hmo : (applyOpt p o).mode = p.mode := by rw [applyOpt_mode, ho]; rfl
          rw [hmo]
      | some m =>
          have hmo : (applyOpt p o).mode = m := by rw [applyOpt_mode, ho]; rfl
          rw [hmo, List.getLastD_cons]

theorem modeOf_le_three {o : Opt} {m : Nat} (h : modeOf o = some m) : m ≤ 3 := by
  cases o <;> simp [modeOf, cpuMode, memMode, blockMode, traceMode] at h <;> omega

theorem getLastD_le_three : ∀ (l : List Nat) (d : Nat), d ≤ 3 → (∀ x ∈ l, x ≤ 3) →
    l.getLastD d ≤ 3
  | [], d, hd, _ => by simpa using hd
  | a :: l, d, _, hl => by
      rw [List.getLastD_cons]
      exact getLastD_le_three l a (hl a (List.mem_cons_self a l))
        (fun x hx => hl x (List.mem_cons_of_mem a hx))

theorem applyOpts_mode_le (opts : List Opt) : (applyOpts opts).mode ≤ 3 := by
  rw [applyOpts, foldl_mode]
  refine getLastD_le_three _ _ (by decide) ?_
  intro x hx
  rw [List.mem_filterMap] at hx
  obtain ⟨o, _, ho⟩ := hx
  exact modeOf_le_three ho

/-- C4: For every sequence of option functions, resolving the built-in
defaults (mode = CPU, empty output path, interrupt handling enabled — the
Go zero value of `Profile`) and then applying the options in order yields
a descriptor whose mode equals the last mode-setting option applied
(default `cpuMode` when none is applied); and applying any mode-setting
option yields exactly that mode, clearing any previously selected one. -/
theorem options_last_mode_wins :
    initProfile.mode = cpuMode ∧ initProfile.path = "" ∧
    initProfile.noShutdownHook = false ∧
    (∀ opts : List Opt,
      (applyOpts opts).mode = (opts.filterMap modeOf).getLastD cpuMode) ∧
    (∀ (opts : List Opt) (o : Opt) (m : Nat), modeOf o = some m →
      (applyOpt (applyOpts opts) o).mode = m) := by
  refine ⟨rfl, rfl, rfl, ?_, ?_⟩
  · intro opts
    exact foldl_mode opts initProfile
  · intro opts o m h
    rw [applyOpt_mode, h]
    rfl

/-- Witness for C4: after selecting CPU then block profiling, applying the
trace option yields mode `traceMode`. -/
theorem options_last_mode_wins_witness :
    (applyOpt (applyOpts [Opt.cpuProfileOpt, Opt.blockProfileOpt])
      Opt.traceProfileOpt).mode = traceMode :=
  options_last_mode_wins.2.2.2.2 [Opt.cpuProfileOpt, Opt.blockProfileOpt]
    Opt.traceProfileOpt traceMode rfl

/-- C1: When a profiling session is already active (the process-wide
`started` flag is set), a second `Start` call terminates the process with
the descriptive message, and the emitted effects contain no file creation,
no directory creation, and no capability activation of any kind. -/
theorem start_while_running_fatal_before_any_effect
    (env : Env) (g : GlobalState) (opts : List Opt) (h : g.started = true) :
    Start env g opts = .fatal g [.fatalLog "profile: Start() already called"] ∧
    (∀ fn, Effect.createFile fn ∉ (Start env g opts).effects) ∧
    (∀ p, Effect.createDir p ∉ (Start env g opts).effects) ∧
    (∀ p, Effect.createTempDir p ∉ (Start env g opts).effects) ∧
    (∀ fn, Effect.startCPUProfile fn ∉ (Start env g opts).effects) ∧
    (∀ r, Effect.setMemProfileRate r ∉ (Start env g opts).effects) ∧
    (∀ r, Effect.setBlockProfileRate r ∉ (Start env g opts).effects) ∧
    (∀ fn, Effect.startTraceEff fn ∉ (Start env g opts).effects) := by
  have he : Start env g opts = .fatal g [.fatalLog "profile: Start() already called"] := by
    unfold Start
    simp [h]
  refine ⟨he, ?_, ?_, ?_, ?_, ?_, ?_, ?_⟩ <;>
    intro x <;> rw [he] <;> simp [StartResult.effects]

/-- Witness for C1: a concrete already-running state. -/
theorem start_while_running_fatal_witness :
    Start ⟨true, some "/tmp/profile042", fun _ => true, true⟩
        ⟨true, 512, 0⟩ [Opt.cpuProfileOpt]
      = .fatal ⟨true, 512, 0⟩ [.fatalLog "profile: Start() already called"] :=
  (start_while_running_fatal_before_any_effect
    ⟨true, some "/tmp/profile042", fun _ => true, true⟩ ⟨true, 512, 0⟩
    [Opt.cpuProfileOpt] rfl).1

theorem start_ok_inv {env g opts s g1 effs}
    (h : Start env g opts = .ok s g1 effs) :
    g.started = false ∧
    ∃ path dirEff tail,
      resolvePath env (applyOpts opts).path = some (path, dirEff) ∧
      dispatchMode env (applyOpts opts) { g with started := true } path
        = .ok s g1 tail ∧
      effs = dirEff :: tail := by
  unfold Start at h
  by_cases hg : g.started = true
  · rw [if_pos hg] at h
    simp at h
  · rw [if_neg hg] at h
    simp only [] at h
    refine ⟨by simpa using hg, ?_⟩
    split at h
    · simp at h
    · rename_i path dirEff hr
      split at h
      · simp at h
      · rename_i s2 g2 tail hd
        simp only [StartResult.ok.injEq] at h
        obtain ⟨hs, hg1, he⟩ := h
        exact ⟨path, dirEff, tail, hr, by rw [hs, hg1] at hd; exact hd, he.symm⟩

theorem dispatch_ok_inv {env prof g path s g2 effs}
    (hm : prof.mode ≤ 3)
    (h : dispatchMode env prof g path = .ok s g2 effs) :
    s.stopped = 0 ∧ s.prof = prof ∧ (∃ c, s.closer = some c) ∧
    g2.started = g.started := by
  have h4 : prof.mode = 0 ∨ prof.mode = 1 ∨ prof.mode = 2 ∨ prof.mode = 3 := by
    omega
  unfold dispatchMode at h
  rcases h4 with h0 | h1 | h2 | h3
  · rw [if_pos (by rw [h0]; rfl)] at h
    by_cases hc : env.createOk (filepathJoin path "cpu.pprof") = true
    · simp only [hc, if_true, StartResult.ok.injEq] at h
      obtain ⟨hs, hg, _⟩ := h
      exact ⟨by rw [← hs], by rw [← hs], ⟨_, by rw [← hs]⟩, by rw [← hg]⟩
    · simp [hc] at h
  · rw [if_neg (by rw [h1]; simp [cpuMode]), if_pos (by rw [h1]; rfl)] at h
    by_cases hc : env.createOk (filepathJoin path "mem.pprof") = true
    · simp only [hc, if_true, StartResult.ok.injEq] at h
      obtain ⟨hs, hg, _⟩ := h
      exact ⟨by rw [← hs], by rw [← hs], ⟨_, by rw [← hs]⟩, by rw [← hg]⟩
    · simp [hc] at h
  · rw [if_neg (by rw [h2]; simp [cpuMode]), if_neg (by rw [h2]; simp [memMode]),
      if_pos (by rw [h2]; rfl)] at h
    by_cases hc : env.createOk (filepathJoin path "block.pprof") = true
    · simp only [hc, if_true, StartResult.ok.injEq] at h
      obtain ⟨hs, hg, _⟩ := h
      exact ⟨by rw [← hs], by rw [← hs], ⟨_, by rw [← hs]⟩, by rw [← hg]⟩
    · simp [hc] at h
  · rw [if_neg (by rw [h3]; simp [cpuMode]), if_neg (by rw [h3]; simp [memMode]),
      if_neg (by rw [h3]; simp [blockMode]), if_pos (by rw [h3]; rfl)] at h
    by_cases hc : env.createOk (filepathJoin path "trace.out") = true
    · by_cases ht : env.startTraceOk = true
      · simp only [hc, ht, if_true, StartResult.ok.injEq] at h
        obtain ⟨hs, hg, _⟩ := h
        exact ⟨by rw [← hs], by rw [← hs], ⟨_, by rw [← hs]⟩, by rw [← hg]⟩
      · simp [hc, ht] at h
    · simp [hc] at h

theorem stop_run {s : Session} {g : GlobalState} {c : Closer}
    (h0 : s.stopped = 0) (hc : s.closer = some c) :
    s.Stop g = some ({ s with stopped := 1 },
      { (runCloser s.prof.quiet g c).1 with started := false },
      (runCloser s.prof.quiet g c).2 ++ [.clearStarted]) := by
  simp [Session.Stop, h0, hc]

theorem stop_already_stopped {s : Session} {g : GlobalState}
    (h : s.stopped ≠ 0) : s.Stop g = some (s, g, []) := by
  simp [Session.Stop, h]

/-- C9: Every session handle returned by `Start` carries a non-nil closer:
the mode defaults to `cpuMode` (the zero value) and every reachable mode
branch of the dispatch assigns a closer, so the closer call inside `Stop`
is never an invocation of a nil function (`Stop` never hits the `none`
panic case). -/
theorem start_session_closer_nonnil
    {env : Env} {g g1 : GlobalState} {opts : List Opt} {s : Session}
    {effs : List Effect} (h : Start env g opts = .ok s g1 effs) :
    initProfile.mode = cpuMode ∧ (∃ c, s.closer = some c) ∧
    (s.Stop g1).isSome = true := by
  obtain ⟨-, path, dirEff, tail, -, hd, -⟩ := start_ok_inv h
  obtain ⟨h0, -, ⟨c, hc⟩, -⟩ := dispatch_ok_inv (applyOpts_mode_le opts) hd
  exact ⟨rfl, ⟨c, hc⟩, by rw [stop_run h0 hc]; rfl⟩

/-- Witness for C9: a concrete started session has a non-nil closer. -/
theorem start_session_closer_nonnil_witness :
    ∃ c, (Session.mk ⟨false, false, 2, "", 0⟩
      (some (.block "/tmp/profile042/block.pprof")) 0).closer = some c := by
  have h : Start ⟨true, some "/tmp/profile042", fun _ => true, true⟩ ⟨false, 512, 0⟩
      [Opt.blockProfileOpt]
      = .ok (Session.mk ⟨false, false, 2, "", 0⟩
          (some (.block "/tmp/profile042/block.pprof")) 0)
        ⟨true, 512, 1⟩
        [.createTempDir "/tmp/profile042",
         .createFile "/tmp/profile042/block.pprof",
         .setBlockProfileRate 1,
         .infoLog "profile: block profiling enabled, /tmp/profile042/block.pprof"] := rfl
  exact (start_session_closer_nonnil h).2.1

theorem clearStarted_not_mem_runCloser (q : Bool) (g : GlobalState) (c : Closer) :
    Effect.clearStarted ∉ (runCloser q g c).2 := by
  cases c <;> cases q <;> simp [runCloser, logf]

/-- Environment in which every OS operation the package performs succeeds. -/
def goodEnv (env : Env) : Prop :=
  env.mkdirAllOk = true ∧ (∃ d, env.tempDirResult = some d) ∧
  (∀ fn, env.createOk fn = true) ∧ env.startTraceOk = true

theorem dispatch_good_ok (env : Env) (prof : Profile) (g : GlobalState)
    (path : String) (hcr : ∀ fn, env.createOk fn = true)
    (htr : env.startTraceOk = true) :
    ∃ s g2 tail, dispatchMode env prof g path = .ok s g2 tail ∧ s.stopped = 0 := by
  simp only [dispatchMode]
  split_ifs <;>
    first
      | exact ⟨_, _, _, rfl, rfl⟩
      | exact absurd (hcr _) (by assumption)

theorem start_ok_of_good {g : GlobalState} (env : Env) (opts : List Opt)
    (hg : g.started = false) (he : goodEnv env) :
    ∃ s g1 effs, Start env g opts = .ok s g1 effs ∧ s.stopped = 0 := by
  obtain ⟨hmk, ⟨d, htd⟩, hcr, htr⟩ := he
  obtain ⟨pth, de, hres⟩ :
      ∃ pth de, resolvePath env (applyOpts opts).path = some (pth, de) := by
    by_cases hp : (applyOpts opts).path = ""
    · exact ⟨d, .createTempDir d, by simp [resolvePath, hp, htd]⟩
    · exact ⟨(applyOpts opts).path, .createDir ((applyOpts opts).path),
        by simp [resolvePath, hp, hmk]⟩
  obtain ⟨s, g2, tail, hd, hs0⟩ :=
    dispatch_good_ok env (applyOpts opts) { g with started := true } pth hcr htr
  refine ⟨s, g2, de :: tail, ?_, hs0⟩
  unfold Start
  rw [if_neg (by simp [hg])]
  simp only [hres, hd]

/-- C2: For every session handle returned by `Start`, calling `Stop` twice
performs the teardown exactly once: the first call transitions the stopped
flag and emits exactly the closer's effects (followed by the release of
the running flag), and the second call returns immediately with unchanged
state and no effects. The interrupt watcher goes through the same
`Session.Stop` entry point (see `deliverInterrupt`), so the guarantee is
independent of which caller stops first. -/
theorem stop_twice_teardown_once
    {env : Env} {g g1 : GlobalState} {opts : List Opt} {s : Session}
    {effs : List Effect} (h : Start env g opts = .ok s g1 effs) :
    ∃ s2 g2 t, s.Stop g1 = some (s2, g2, t) ∧
      (∃ c, s.closer = some c ∧
        t = (runCloser s.prof.quiet g1 c).2 ++ [.clearStarted]) ∧
      s2.Stop g2 = some (s2, g2, []) := by
  obtain ⟨-, path, dirEff, tail, -, hd, -⟩ := start_ok_inv h
  obtain ⟨h0, -, ⟨c, hc⟩, -⟩ := dispatch_ok_inv (applyOpts_mode_le opts) hd
  refine ⟨_, _, _, stop_run h0 hc, ⟨c, hc, rfl⟩, ?_⟩
  exact stop_already_stopped (by cases s; simp)

/-- Witness for C2: the default CPU session, stopped twice. -/
theorem stop_twice_teardown_once_witness :
    ∃ s2 g2 t,
      (Session.mk ⟨false, false, 0, "", 0⟩
          (some (.cpu "/tmp/profile042/cpu.pprof")) 0).Stop ⟨true, 512, 0⟩
        = some (s2, g2, t) ∧
      (∃ c, (Session.mk ⟨false, false, 0, "", 0⟩
          (some (.cpu "/tmp/profile042/cpu.pprof")) 0).closer = some c ∧
        t = (runCloser false ⟨true, 512, 0⟩ c).2 ++ [.clearStarted]) ∧
      s2.Stop g2 = some (s2, g2, []) :=
  stop_twice_teardown_once
    (show Start ⟨true, some "/tmp/profile042", fun _ => true, true⟩
        ⟨false, 512, 0⟩ []
      = .ok (Session.mk ⟨false, false, 0, "", 0⟩
          (some (.cpu "/tmp/profile042/cpu.pprof")) 0)
        ⟨true, 512, 0⟩
        [.createTempDir "/tmp/profile042",
         .createFile "/tmp/profile042/cpu.pprof",
         .infoLog "profile: cpu profiling enabled, /tmp/profile042/cpu.pprof",
         .startCPUProfile "/tmp/profile042/cpu.pprof"] from rfl)

/-- C3: When `Stop` wins the stopped-flag transition, the mode-specific
teardown effects all precede the release of the process-wide running flag
(the trailing `clearStarted`), the returned global state has the running
flag clear, and a subsequent `Start` (in any environment where the OS
operations succeed) returns a fresh session whose stopped flag is unset. -/
theorem stop_clears_running_then_restart_succeeds
    {env : Env} {g g1 : GlobalState} {opts : List Opt} {s : Session}
    {effs : List Effect} (h : Start env g opts = .ok s g1 effs) :
    ∃ s2 g2 t, s.Stop g1 = some (s2, g2, t ++ [.clearStarted]) ∧
      Effect.clearStarted ∉ t ∧ g2.started = false ∧
      ∀ env2 opts2, goodEnv env2 →
        ∃ s3 g3 e3, Start env2 g2 opts2 = .ok s3 g3 e3 ∧ s3.stopped = 0 := by
  obtain ⟨-, path, dirEff, tail, -, hd, -⟩ := start_ok_inv h
  obtain ⟨h0, -, ⟨c, hc⟩, -⟩ := dispatch_ok_inv (applyOpts_mode_le opts) hd
  refine ⟨_, _, (runCloser s.prof.quiet g1 c).2, stop_run h0 hc,
    clearStarted_not_mem_runCloser _ _ _, rfl, ?_⟩
  intro env2 opts2 hgood
  exact start_ok_of_good env2 opts2 rfl hgood

/-- Witness for C3: the default CPU session, stopped, then restarted in a
fully permissive environment. -/
theorem stop_clears_running_then_restart_succeeds_witness :
    ∃ s2 g2 t,
      (Session.mk ⟨false, false, 0, "", 0⟩
          (some (.cpu "/tmp/profile042/cpu.pprof")) 0).Stop ⟨true, 512, 0⟩
        = some (s2, g2, t ++ [.clearStarted]) ∧
      Effect.clearStarted ∉ t ∧ g2.started = false ∧
      ∀ env2 opts2, goodEnv env2 →
        ∃ s3 g3 e3, Start env2 g2 opts2 = .ok s3 g3 e3 ∧ s3.stopped = 0 :=
  stop_clears_running_then_restart_succeeds
    (show Start ⟨true, some "/tmp/profile042", fun _ => true, true⟩
        ⟨false, 512, 0⟩ []
      = .ok (Session.mk ⟨false, false, 0, "", 0⟩
          (some (.cpu "/tmp/profile042/cpu.pprof")) 0)
        ⟨true, 512, 0⟩
        [.createTempDir "/tmp/profile042",
         .createFile "/tmp/profile042/cpu.pprof",
         .infoLog "profile: cpu profiling enabled, /tmp/profile042/cpu.pprof",
         .startCPUProfile "/tmp/profile042/cpu.pprof"] from rfl)

theorem resolvePath_shape {env : Env} {p pth : String} {de : Effect}
    (h : resolvePath env p = some (pth, de)) :
    de = .createDir pth ∨ de = .createTempDir pth := by
  unfold resolvePath at h
  by_cases hp : p = ""
  · rw [if_neg (by simp [hp])] at h
    cases htd : env.tempDirResult with
    | none =>
        rw [htd] at h
        simp at h
    | some d =>
        simp only [htd, Option.some.injEq, Prod.mk.injEq] at h
        exact Or.inr (by rw [← h.1, ← h.2])
  · rw [if_pos hp] at h
    by_cases hmk : env.mkdirAllOk = true
    · rw [if_pos hmk] at h
      simp only [Option.some.injEq, Prod.mk.injEq] at h
      exact Or.inl (by rw [← h.1, ← h.2])
    · rw [if_neg hmk] at h
      simp at h

theorem dispatch_createFile {env : Env} {prof : Profile} {g g2 : GlobalState}
    {path : String} {s : Session} {effs : List Effect}
    (h : dispatchMode env prof g path = .ok s g2 effs) (fn : String)
    (hm : Effect.createFile fn ∈ effs) :
    ∃ base, fn = filepathJoin path base := by
  simp only [dispatchMode] at h
  split_ifs at h <;>
    first
      | exact StartResult.noConfusion h
      | (simp only [StartResult.ok.injEq] at h
         obtain ⟨-, -, he⟩ := h
         subst he
         cases hq : prof.quiet <;> simp [logf, hq] at hm <;> exact ⟨_, hm⟩)

/-- C5: Output-path resolution. An empty output path resolves to the fresh
directory handed out by `ioutil.TempDir` (the `Env` models its freshly
created unique name); a non-empty path resolves to exactly that path via
`os.MkdirAll`, with no temp-directory fallback; failure of either OS call
makes `Start` terminate with the diagnostic; and on success the resolved
directory is created first and every artifact file is created inside it. -/
theorem output_path_resolution (env : Env) (g : GlobalState) (opts : List Opt) :
    (∀ d, env.tempDirResult = some d →
      resolvePath env "" = some (d, .createTempDir d)) ∧
    (∀ p, p ≠ "" → env.mkdirAllOk = true →
      resolvePath env p = some (p, .createDir p)) ∧
    (∀ p, p ≠ "" → env.mkdirAllOk = false → resolvePath env p = none) ∧
    (env.tempDirResult = none → resolvePath env "" = none) ∧
    (g.started = false →
      resolvePath env (applyOpts opts).path = none →
      Start env g opts = .fatal { g with started := true }
        [.fatalLog "profile: could not create initial output directory"]) ∧
    (∀ path dirEff, g.started = false →
      resolvePath env (applyOpts opts).path = some (path, dirEff) →
      (Start env g opts).effects.head? = some dirEff ∧
      ∀ s g1 effs fn, Start env g opts = .ok s g1 effs →
        Effect.createFile fn ∈ effs → ∃ base, fn = filepathJoin path base) := by
  refine ⟨?_, ?_, ?_, ?_, ?_, ?_⟩
  · intro d htd
    simp [resolvePath, htd]
  · intro p hp hmk
    simp [resolvePath, hp, hmk]
  · intro p hp hmk
    simp [resolvePath, hp, hmk]
  · intro htd
    simp [resolvePath, htd]
  · intro hg hnone
    unfold Start
    rw [if_neg (by simp [hg])]
    simp only [hnone]
  · intro path dirEff hg hres
    constructor
    · have hs : Start env g opts
          = match dispatchMode env (applyOpts opts) { g with started := true } path with
            | .fatal g2 effs => .fatal g2 (dirEff :: effs)
            | .ok s g2 effs => .ok s g2 (dirEff :: effs) := by
        unfold Start
        rw [if_neg (by simp [hg])]
        simp only [hres]
      rcases hd : dispatchMode env (applyOpts opts) { g with started := true } path with
        ⟨g2, e⟩ | ⟨s2, g2, e⟩ <;> rw [hd] at hs <;> rw [hs] <;> rfl
    · intro s g1 effs fn hok hmem
      obtain ⟨-, path2, dirEff2, tail, hres2, hd, he⟩ := start_ok_inv hok
      rw [hres] at hres2
      simp only [Option.some.injEq, Prod.mk.injEq] at hres2
      obtain ⟨hp2, hd2⟩ := hres2
      subst hp2
      rw [he] at hmem
      rcases List.mem_cons.mp hmem with h1 | h2
      · rw [← hd2] at h1
        rcases resolvePath_shape hres with hsh | hsh <;>
          rw [hsh] at h1 <;> simp at h1
      · exact dispatch_createFile hd fn h2

/-- Witness for C5: concrete environments for the temp-dir, explicit-path,
and the two failure cases, plus a fatal `Start` on a failing mkdir. -/
theorem output_path_resolution_witness :
    resolvePath ⟨true, some "/tmp/profile042", fun _ => true, true⟩ ""
      = some ("/tmp/profile042", .createTempDir "/tmp/profile042") ∧
    resolvePath ⟨true, some "/tmp/profile042", fun _ => true, true⟩ "myprof"
      = some ("myprof", .createDir "myprof") ∧
    resolvePath ⟨false, some "/tmp/profile042", fun _ => true, true⟩ "myprof"
      = none ∧
    resolvePath ⟨true, none, fun _ => true, true⟩ "" = none ∧
    Start ⟨true, none, fun _ => true, true⟩ ⟨false, 512, 0⟩ []
      = .fatal ⟨true, 512, 0⟩
        [.fatalLog "profile: could not create initial output directory"] := by
  refine ⟨?_, ?_, ?_, ?_, ?_⟩
  · exact (output_path_resolution ⟨true, some "/tmp/profile042", fun _ => true, true⟩
      ⟨false, 512, 0⟩ []).1 "/tmp/profile042" rfl
  · exact (output_path_resolution ⟨true, some "/tmp/profile042", fun _ => true, true⟩
      ⟨false, 512, 0⟩ []).2.1 "myprof" (by decide) rfl
  · exact (output_path_resolution ⟨false, some "/tmp/profile042", fun _ => true, true⟩
      ⟨false, 512, 0⟩ []).2.2.1 "myprof" (by decide) rfl
  · exact (output_path_resolution ⟨true, none, fun _ => true, true⟩
      ⟨false, 512, 0⟩ []).2.2.2.1 rfl
  · exact (output_path_resolution ⟨true, none, fun _ => true, true⟩
      ⟨false, 512, 0⟩ []).2.2.2.2.1 rfl rfl

theorem deliverInterrupts_disarmed (n : Nat) (s : Session) (g : GlobalState) :
    deliverInterrupts n ⟨false⟩ s g = (⟨false⟩, s, g, []) := by
  induction n with
  | zero => rfl
  | succ n ih => simp [deliverInterrupts, deliverInterrupt, ih]

/-- C6: For a session returned by `Start` with auto interrupt handling
enabled, the interrupt watcher fires at most once: on the first signal it
stops receiving further interrupts, invokes `Stop` (so the teardown `t`
completes), and then exits the process with success status — and any
number of further signals leaves state and effect trace unchanged (the
watcher never reactivates). -/
theorem interrupt_watcher_fires_at_most_once
    {env : Env} {g g1 : GlobalState} {opts : List Opt} {s : Session}
    {effs : List Effect} (h : Start env g opts = .ok s g1 effs)
    (_hhook : (applyOpts opts).noShutdownHook = false) (n : Nat) :
    ∃ s2 g2 t, s.Stop g1 = some (s2, g2, t) ∧
      deliverInterrupt ⟨true⟩ s g1
        = (⟨false⟩, s2, g2,
            [.infoLog "profile: caught interrupt, stopping profiles", .signalStopEff]
              ++ t ++ [.exitSuccess]) ∧
      deliverInterrupts (n + 1) ⟨true⟩ s g1
        = (⟨false⟩, s2, g2,
            [.infoLog "profile: caught interrupt, stopping profiles", .signalStopEff]
              ++ t ++ [.exitSuccess]) := by
  obtain ⟨-, path, dirEff, tail, -, hd, -⟩ := start_ok_inv h
  obtain ⟨h0, -, ⟨c, hc⟩, -⟩ := dispatch_ok_inv (applyOpts_mode_le opts) hd
  have hstop := stop_run (g := g1) h0 hc
  refine ⟨_, _, _, hstop, ?_, ?_⟩
  · simp [deliverInterrupt, hstop]
  · simp [deliverInterrupts, deliverInterrupt, hstop, deliverInterrupts_disarmed]

/-- Witness for C6: the default CPU session, with two interrupts delivered;
the second changes nothing. -/
theorem interrupt_watcher_fires_at_most_once_witness :
    ∃ s2 g2 t,
      (Session.mk ⟨false, false, 0, "", 0⟩
          (some (.cpu "/tmp/profile042/cpu.pprof")) 0).Stop ⟨true, 512, 0⟩
        = some (s2, g2, t) ∧
      deliverInterrupt ⟨true⟩
          (Session.mk ⟨false, false, 0, "", 0⟩
            (some (.cpu "/tmp/profile042/cpu.pprof")) 0) ⟨true, 512, 0⟩
        = (⟨false⟩, s2, g2,
            [.infoLog "profile: caught interrupt, stopping profiles", .signalStopEff]
              ++ t ++ [.exitSuccess]) ∧
      deliverInterrupts 2 ⟨true⟩
          (Session.mk ⟨false, false, 0, "", 0⟩
            (some (.cpu "/tmp/profile042/cpu.pprof")) 0) ⟨true, 512, 0⟩
        = (⟨false⟩, s2, g2,
            [.infoLog "profile: caught interrupt, stopping profiles", .signalStopEff]
              ++ t ++ [.exitSuccess]) :=
  interrupt_watcher_fires_at_most_once
    (show Start ⟨true, some "/tmp/profile042", fun _ => true, true⟩
        ⟨false, 512, 0⟩ []
      = .ok (Session.mk ⟨false, false, 0, "", 0⟩
          (some (.cpu "/tmp/profile042/cpu.pprof")) 0)
        ⟨true, 512, 0⟩
        [.createTempDir "/tmp/profile042",
         .createFile "/tmp/profile042/cpu.pprof",
         .infoLog "profile: cpu profiling enabled, /tmp/profile042/cpu.pprof",
         .startCPUProfile "/tmp/profile042/cpu.pprof"] from rfl)
    rfl 1

/-- C7: For a heap-mode session, `Start` records the prior global
heap-sampling rate (captured as `old` in the closer) and overrides the
global rate with the descriptor's `memProfileRate`; the teardown writes
the heap snapshot, closes the artifact, and restores the prior rate, so
after `Stop` the global rate equals its pre-session value. -/
theorem heap_rate_recorded_and_restored
    (env : Env) (g : GlobalState) (opts : List Opt) (path : String) (dirEff : Effect)
    (hg : g.started = false)
    (hm : (applyOpts opts).mode = memMode)
    (hres : resolvePath env (applyOpts opts).path = some (path, dirEff))
    (hcr : env.createOk (filepathJoin path "mem.pprof") = true) :
    Start env g opts
      = .ok ⟨applyOpts opts,
            some (.mem (filepathJoin path "mem.pprof") g.memProfileRate), 0⟩
          ⟨true, (applyOpts opts).memProfileRate, g.blockProfileRate⟩
          (dirEff ::
            [.createFile (filepathJoin path "mem.pprof"),
             .setMemProfileRate (applyOpts opts).memProfileRate]
              ++ logf (applyOpts opts).quiet
                  ("profile: memory profiling enabled, "
                    ++ filepathJoin path "mem.pprof")) ∧
    (Session.mk (applyOpts opts)
        (some (.mem (filepathJoin path "mem.pprof") g.memProfileRate)) 0).Stop
        ⟨true, (applyOpts opts).memProfileRate, g.blockProfileRate⟩
      = some (⟨applyOpts opts,
            some (.mem (filepathJoin path "mem.pprof") g.memProfileRate), 1⟩,
          ⟨false, g.memProfileRate, g.blockProfileRate⟩,
          [.writeHeapProfile (filepathJoin path "mem.pprof"),
           .closeFile (filepathJoin path "mem.pprof"),
           .setMemProfileRate g.memProfileRate]
            ++ logf (applyOpts opts).quiet
                ("profile: memory profiling disabled, "
                  ++ filepathJoin path "mem.pprof")
            ++ [.clearStarted]) ∧
    (⟨false, g.memProfileRate, g.blockProfileRate⟩ : GlobalState).memProfileRate
      = g.memProfileRate := by
  refine ⟨?_, ?_, rfl⟩
  · unfold Start
    rw [if_neg (by simp [hg])]
    simp only [hres, dispatchMode, hm, hcr]
    simp [cpuMode, memMode]
  · exact stop_run
      (s := ⟨applyOpts opts,
        some (.mem (filepathJoin path "mem.pprof") g.memProfileRate), 0⟩)
      (g := ⟨true, (applyOpts opts).memProfileRate, g.blockProfileRate⟩)
      rfl rfl

/-- Witness for C7: a heap session at rate 1 starting from global rate 512;
the rate is overridden to 1 and restored to 512 by `Stop`. -/
theorem heap_rate_recorded_and_restored_witness :
    Start ⟨true, some "/tmp/profile042", fun _ => true, true⟩ ⟨false, 512, 0⟩
        [Opt.memProfileRateOpt 1]
      = .ok ⟨applyOpts [Opt.memProfileRateOpt 1],
            some (.mem (filepathJoin "/tmp/profile042" "mem.pprof") 512), 0⟩
          ⟨true, (applyOpts [Opt.memProfileRateOpt 1]).memProfileRate, 0⟩
          (Effect.createTempDir "/tmp/profile042" ::
            [.createFile (filepathJoin "/tmp/profile042" "mem.pprof"),
             .setMemProfileRate (applyOpts [Opt.memProfileRateOpt 1]).memProfileRate]
              ++ logf (applyOpts [Opt.memProfileRateOpt 1]).quiet
                  ("profile: memory profiling enabled, "
                    ++ filepathJoin "/tmp/profile042" "mem.pprof")) ∧
    (Session.mk (applyOpts [Opt.memProfileRateOpt 1])
        (some (.mem (filepathJoin "/tmp/profile042" "mem.pprof") 512)) 0).Stop
        ⟨true, (applyOpts [Opt.memProfileRateOpt 1]).memProfileRate, 0⟩
      = some (⟨applyOpts [Opt.memProfileRateOpt 1],
            some (.mem (filepathJoin "/tmp/profile042" "mem.pprof") 512), 1⟩,
          ⟨false, 512, 0⟩,
          [.writeHeapProfile (filepathJoin "/tmp/profile042" "mem.pprof"),
           .closeFile (filepathJoin "/tmp/profile042" "mem.pprof"),
           .setMemProfileRate 512]
            ++ logf (applyOpts [Opt.memProfileRateOpt 1]).quiet
                ("profile: memory profiling disabled, "
                  ++ filepathJoin "/tmp/profile042" "mem.pprof")
            ++ [.clearStarted]) ∧
    (⟨false, 512, 0⟩ : GlobalState).memProfileRate = 512 :=
  heap_rate_recorded_and_restored
    ⟨true, some "/tmp/profile042", fun _ => true, true⟩ ⟨false, 512, 0⟩
    [Opt.memProfileRateOpt 1] "/tmp/profile042"
    (.createTempDir "/tmp/profile042") rfl rfl rfl rfl

theorem dispatch_no_info (env : Env) (prof : Profile) (g : GlobalState)
    (path : String) (hq : prof.quiet = true) (m : String) :
    Effect.infoLog m ∉ (dispatchMode env prof g path).effects := by
  simp only [dispatchMode]
  split_ifs <;> simp [StartResult.effects, logf, hq]

theorem runCloser_no_info (g : GlobalState) (c : Closer) (m : String) :
    Effect.infoLog m ∉ (runCloser true g c).2 := by
  cases c <;> simp [runCloser, logf]

theorem dispatch_fatal_has_fatalLog {env : Env} {prof : Profile}
    {g g2 : GlobalState} {path : String} {effs : List Effect}
    (h : dispatchMode env prof g path = .fatal g2 effs) :
    ∃ msg, Effect.fatalLog msg ∈ effs := by
  simp only [dispatchMode] at h
  split_ifs at h <;>
    first
      | exact StartResult.noConfusion h
      | (simp only [StartResult.fatal.injEq] at h
         rw [← h.2]
         first
           | exact ⟨_, List.mem_cons_self _ _⟩
           | exact ⟨_, List.mem_cons_of_mem _ (List.mem_cons_self _ _)⟩)

/-- C8 (amended): In the options-API revision with the `logf` helper, the
quiet setting suppresses only informational log lines: a quiet session's
`Start` and teardown emit no `infoLog` at all, while every fatal outcome
of `Start` carries its `fatalLog` diagnostic regardless of the quiet
setting. (In the earlier revision modelled by `P1.start`, `Quiet`
redirects the whole global logger to the discard sink before mode
dispatch, so there fatal diagnostics from artifact creation are
suppressed too — see the counterexample.) -/
theorem quiet_suppresses_only_info_in_options_api
    (env : Env) (g : GlobalState) (opts : List Opt) :
    ((applyOpts opts).quiet = true →
      ∀ m, Effect.infoLog m ∉ (Start env g opts).effects) ∧
    (∀ g2 effs, Start env g opts = .fatal g2 effs →
      ∃ msg, Effect.fatalLog msg ∈ effs) ∧
    (∀ s g1 effs, Start env g opts = .ok s g1 effs →
      (applyOpts opts).quiet = true →
      ∀ s2 g2 t m, s.Stop g1 = some (s2, g2, t) →
        Effect.infoLog m ∉ t) := by
  refine ⟨?_, ?_, ?_⟩
  · intro hq m
    unfold Start
    by_cases hg : g.started = true
    · rw [if_pos hg]
      simp [StartResult.effects]
    · rw [if_neg hg]
      simp only []
      cases hres : resolvePath env (applyOpts opts).path with
      | none => simp [StartResult.effects]
      | some pd =>
          obtain ⟨path, de⟩ := pd
          simp only [hres]
          have hde := resolvePath_shape hres
          have hdi := dispatch_no_info
            env (applyOpts opts) { g with started := true } path hq m
          cases hd : dispatchMode env (applyOpts opts) { g with started := true } path with
          | fatal g2 e =>
              rw [hd] at hdi
              simp only [StartResult.effects] at hdi ⊢
              intro hmem
              rcases List.mem_cons.mp hmem with h1 | h2
              · rcases hde with hsh | hsh <;> rw [hsh] at h1 <;>
                  exact Effect.noConfusion h1
              · exact hdi h2
          | ok s g2 e =>
              rw [hd] at hdi
              simp only [StartResult.effects] at hdi ⊢
              intro hmem
              rcases List.mem_cons.mp hmem with h1 | h2
              · rcases hde with hsh | hsh <;> rw [hsh] at h1 <;>
                  exact Effect.noConfusion h1
              · exact hdi h2
  · intro g2 effs h
    unfold Start at h
    by_cases hg : g.started = true
    · rw [if_pos hg] at h
      simp only [StartResult.fatal.injEq] at h
      exact ⟨_, by rw [← h.2]; exact List.mem_cons_self _ _⟩
    · rw [if_neg hg] at h
      simp only [] at h
      split at h
      · simp only [StartResult.fatal.injEq] at h
        exact ⟨_, by rw [← h.2]; exact List.mem_cons_self _ _⟩
      · rename_i path de hres
        split at h
        · rename_i gf ef hd
          simp only [StartResult.fatal.injEq] at h
          obtain ⟨msg, hmsg⟩ := dispatch_fatal_has_fatalLog hd
          exact ⟨msg, by rw [← h.2]; exact List.mem_cons_of_mem _ hmsg⟩
        · exact StartResult.noConfusion h
  · intro s g1 effs hok hq s2 g2 t m hstop
    obtain ⟨-, path, dirEff, tail, -, hd, -⟩ := start_ok_inv hok
    obtain ⟨h0, hprof, ⟨c, hc⟩, -⟩ := dispatch_ok_inv (applyOpts_mode_le opts) hd
    rw [stop_run h0 hc] at hstop
    simp only [Option.some.injEq, Prod.mk.injEq] at hstop
    obtain ⟨-, -, ht⟩ := hstop
    rw [← ht]
    have hqq : s.prof.quiet = true := by rw [hprof]; exact hq
    rw [hqq]
    intro hmem
    rcases List.mem_append.mp hmem with h1 | h1
    · exact runCloser_no_info g1 c m h1
    · simp at h1

/-- Witness for C8's amended statement: a quiet session's `Start` trace has
no informational line, and a failing `Start` carries its diagnostic. -/
theorem quiet_suppresses_only_info_witness :
    Effect.infoLog "x" ∉
      (Start ⟨true, some "/tmp/profile042", fun _ => true, true⟩
        ⟨false, 512, 0⟩ [Opt.quietOpt]).effects ∧
    ∃ msg, Effect.fatalLog msg ∈
      [Effect.fatalLog "profile: could not create initial output directory"] := by
  constructor
  · exact (quiet_suppresses_only_info_in_options_api
      ⟨true, some "/tmp/profile042", fun _ => true, true⟩
      ⟨false, 512, 0⟩ [Opt.quietOpt]).1 rfl "x"
  · exact (quiet_suppresses_only_info_in_options_api
      ⟨true, none, fun _ => true, true⟩ ⟨false, 512, 0⟩ []).2.1
      ⟨true, 512, 0⟩ _ rfl

/-- C8 counterexample: in the `P1` revision, `Quiet` redirects the global
logger to the discard sink, so a quiet session whose cpu-profile file
creation fails terminates with NO error diagnostic emitted — while the
identical non-quiet run emits one. This refutes the claim that
error-level diagnostics are emitted regardless of the quiet setting for
every session of the repository. -/
theorem quiet_discards_fatal_diagnostics_p1 :
    P1.start ⟨true, some "/tmp/profile042", fun _ => false, true⟩
        [P1.Opt1.quietOpt]
      = .fatal [] ∧
    P1.start ⟨true, some "/tmp/profile042", fun _ => false, true⟩ []
      = .fatal
        [.fatalLog "profile: could not create cpu profile /tmp/profile042/cpu.pprof"] :=
  ⟨rfl, rfl⟩

/-- C10: In the `*Config` API, every getter returns its documented default
on a nil receiver (`Verbose` true, cpu and memory profiling disabled,
empty profile path), and `Start(nil)` behaves observably exactly like
`Start` on a `Config` with those defaults chosen: same effects, same
outcome, same handle path and closers — in particular it neither
dereferences the nil pointer nor fails when the temp directory is
available. -/
theorem nil_config_same_as_default_config (env : Env) :
    Cfg.getVerbose none = true ∧ Cfg.getCPUProfile none = false ∧
    Cfg.getMemProfile none = false ∧ Cfg.getProfilePath none = "" ∧
    (Cfg.startCfg env none).obs
      = (Cfg.startCfg env (some ⟨true, false, false, ""⟩)).obs ∧
    (∀ d, env.tempDirResult = some d →
      Cfg.startCfg env none = .ok ⟨d, none, []⟩ [.createTempDir d]) := by
  refine ⟨rfl, rfl, rfl, rfl, ?_, ?_⟩
  · unfold Cfg.startCfg
    cases htd : env.tempDirResult <;>
      simp [Cfg.getProfilePath, resolvePath, htd, Cfg.cpuBlock, Cfg.memBlock,
        Cfg.getCPUProfile, Cfg.getMemProfile, Cfg.CfgResult.obs]
  · intro d htd
    unfold Cfg.startCfg
    simp [Cfg.getProfilePath, resolvePath, htd, Cfg.cpuBlock, Cfg.memBlock,
      Cfg.getCPUProfile, Cfg.getMemProfile]

/-- Witness for C10: the nil config in a concrete environment yields the
temp-dir session with no closers. -/
theorem nil_config_same_as_default_config_witness :
    Cfg.startCfg ⟨true, some "/tmp/profile042", fun _ => true, true⟩ none
      = .ok ⟨"/tmp/profile042", none, []⟩ [.createTempDir "/tmp/profile042"] :=
  (nil_config_same_as_default_config
    ⟨true, some "/tmp/profile042", fun _ => true, true⟩).2.2.2.2.2
    "/tmp/profile042" rfl

end PkgProfile
